import Mathlib

/-!
Shallow embedding of the ground-control-station core found in
`src/mavlink_handler.py` and `src/mission_planner.py`.

Python floats are modelled as `ℚ`, Python ints as `ℤ`/`ℕ`, dictionaries as
association lists.  The pymavlink library (`mavutil`) is an external
collaborator: its numeric protocol constants are fixed below, its
vehicle-mode table is injected as a field of the handler state, and its
`recv_match` message filtering is modelled by `recvMatch` over an explicit
list of inbound frames.  Blocking forever on a receive is modelled as
`Option.none`; a Python exception escaping a function is modelled with
`Except`.
-/

/- Protocol constants supplied by the external mavutil collaborator. -/

def MAV_CMD_NAV_WAYPOINT : Nat := 16
def MAV_CMD_NAV_LOITER_TIME : Nat := 19
def MAV_CMD_NAV_RETURN_TO_LAUNCH : Nat := 20
def MAV_CMD_NAV_LAND : Nat := 21
def MAV_CMD_NAV_TAKEOFF : Nat := 22
def MAV_MODE_FLAG_SAFETY_ARMED : Nat := 128
def MAV_MODE_FLAG_CUSTOM_MODE_ENABLED : Nat := 1
def MAV_FRAME_GLOBAL_RELATIVE_ALT : Nat := 3
def MAV_MISSION_TYPE_MISSION : Nat := 0
def MAV_COMP_ID_MISSIONPLANNER : Nat := 190

/-- `TelemetryData` dataclass (mavlink_handler.py lines 14-27), with the
dataclass field defaults baked into `TelemetryData.init`. -/
structure TelemetryData where
  latitude : ℚ
  longitude : ℚ
  altitude : ℚ
  heading : ℚ
  groundspeed : ℚ
  batteryVoltage : ℚ
  batteryRemaining : ℚ
  mode : String
  armed : Bool
  systemStatus : String
  timestamp : ℚ
deriving DecidableEq

def TelemetryData.init : TelemetryData :=
  { latitude := 0, longitude := 0, altitude := 0, heading := 0, groundspeed := 0
    batteryVoltage := 0, batteryRemaining := 0, mode := "UNKNOWN", armed := false
    systemStatus := "UNKNOWN", timestamp := 0 }

/-- One decoded inbound telemetry message, with the payload fields that
`MavlinkHandler._process_message` reads.  `other` covers every message
kind the decoder does not recognize. -/
inductive Msg where
  | heartbeat (baseMode : Nat) (customMode : Nat)
  | globalPositionInt (lat lon alt hdg : ℤ)
  | vfrHud (groundspeed : ℚ)
  | sysStatus (voltageBattery : ℤ) (batteryRemaining : ℚ)
  | other (kind : String)
deriving DecidableEq

/-- `msg.get_type()` of pymavlink: the message kind as a string. -/
def Msg.getType : Msg → String
  | .heartbeat _ _ => "HEARTBEAT"
  | .globalPositionInt _ _ _ _ => "GLOBAL_POSITION_INT"
  | .vfrHud _ => "VFR_HUD"
  | .sysStatus _ _ => "SYS_STATUS"
  | .other kind => kind

/-- Mutable state of `MavlinkHandler` (mavlink_handler.py lines 44-59).
`modeMapping` is the vehicle-mode table of the external mavutil
collaborator, injected here as state (spec section 9 models it as an
injected lookup capability).  Defaults follow `__init__`. -/
structure MavlinkHandler where
  sourceSystem : Nat := 255
  sourceComponent : Nat := MAV_COMP_ID_MISSIONPLANNER
  telemetry : TelemetryData := TelemetryData.init
  connected : Bool := false
  heartbeatTimeout : ℚ := 3
  lastHeartbeat : ℚ := 0
  vehicleSystem : Nat := 0
  vehicleComponent : Nat := 0
  modeMapping : List (String × Nat) := []
deriving DecidableEq

/-- The list comprehension in `_process_message` lines 126-129: reverse
lookup of the numeric mode in the mode table, first match wins,
`"UNKNOWN"` when unmapped. -/
def reverseModeLookup (mm : List (String × Nat)) (modeNum : Nat) : String :=
  match (mm.filter (fun kv => kv.2 == modeNum)).head? with
  | some kv => kv.1
  | none => "UNKNOWN"

/-- `MavlinkHandler._process_message` (mavlink_handler.py lines 116-142).
`now` stands for `time.time()`.  The if/elif chain on `msg.get_type()`
becomes a match on the message constructors; kinds outside the four
recognized ones fall through with no effect. -/
def MavlinkHandler.processMessage (h : MavlinkHandler) (now : ℚ) (msg : Msg) :
    MavlinkHandler :=
  match msg with
  | .heartbeat baseMode customMode =>
      { h with
        lastHeartbeat := now
        telemetry := { h.telemetry with
          armed := (Nat.land baseMode MAV_MODE_FLAG_SAFETY_ARMED) != 0
          timestamp := now
          mode := reverseModeLookup h.modeMapping customMode } }
  | .globalPositionInt lat lon alt hdg =>
      { h with telemetry := { h.telemetry with
          latitude := (lat : ℚ) / 1e7
          longitude := (lon : ℚ) / 1e7
          altitude := (alt : ℚ) / 1000
          heading := (hdg : ℚ) / 100 } }
  | .vfrHud groundspeed =>
      { h with telemetry := { h.telemetry with groundspeed := groundspeed } }
  | .sysStatus voltageBattery batteryRemaining =>
      { h with telemetry := { h.telemetry with
          batteryVoltage := (voltageBattery : ℚ) / 1000
          batteryRemaining := batteryRemaining } }
  | .other _ => h

/-- The drain loop of `update_telemetry` lines 96-101: process every
currently available message in order. -/
def MavlinkHandler.drain (h : MavlinkHandler) (now : ℚ) (frames : List Msg) :
    MavlinkHandler :=
  frames.foldl (fun st m => st.processMessage now m) h

/-- `MavlinkHandler.update_telemetry` (mavlink_handler.py lines 89-114).
`frames` are the messages available during this poll; `readError = true`
models an exception raised by the transport read after the listed frames
were processed (the `except` branch, lines 111-114). -/
def MavlinkHandler.update_telemetry (h : MavlinkHandler) (now : ℚ)
    (frames : List Msg) (readError : Bool) : Bool × MavlinkHandler :=
  if h.connected = false then (false, h)
  else
    let h' := h.drain now frames
    if readError then (false, { h' with connected := false })
    else if now - h'.lastHeartbeat > h.heartbeatTimeout then
      (false, { h' with connected := false })
    else (true, h')

/- Frames sent by the ground station (one constructor per `..._send` call
made by the source, fields in the order of the call's arguments). -/
inductive GFrame where
  | missionClearAll (targetSystem targetComponent : Nat)
  | missionCount (targetSystem targetComponent count missionType : Nat)
  | missionItem (targetSystem targetComponent seq frame command current
      autocontinue : Nat) (p1 p2 p3 x y z : ℚ) (missionType : Nat)
  | setModeFrame (targetSystem baseMode customMode : Nat)
deriving DecidableEq

def GFrame.itemSeq : GFrame → Nat
  | .missionItem _ _ seq _ _ _ _ _ _ _ _ _ _ _ => seq
  | _ => 0

def GFrame.itemCommand : GFrame → Nat
  | .missionItem _ _ _ _ command _ _ _ _ _ _ _ _ _ => command
  | _ => 0

def GFrame.isMissionItem : GFrame → Bool
  | .missionItem _ _ _ _ _ _ _ _ _ _ _ _ _ _ => true
  | _ => false

/-- Frames arriving from the vehicle during the mission-upload handshake. -/
inductive VFrame where
  | missionAck
  | missionRequest (targetSystem targetComponent seq : Nat)
  | other (kind : String)
deriving DecidableEq

def VFrame.getType : VFrame → String
  | .missionAck => "MISSION_ACK"
  | .missionRequest _ _ _ => "MISSION_REQUEST"
  | .other kind => kind

/-- pymavlink `recv_match(type=types, blocking=True)`: discard inbound
frames whose kind is not in `types` until one matches; `none` when the
stream is exhausted (the call would block forever). -/
def recvMatch (types : List String) : List VFrame → Option (VFrame × List VFrame)
  | [] => none
  | f :: rest =>
      if types.contains f.getType then some (f, rest) else recvMatch types rest

/-- The addressing test at mavlink_handler.py lines 228-229. -/
def isAddressedRequest (h : MavlinkHandler) : VFrame → Bool
  | .missionRequest ts tc _ => ts == h.sourceSystem && tc == h.sourceComponent
  | _ => false

/-- The first wait loop of `upload_mission` (lines 226-230): repeatedly
`recv_match(type='MISSION_REQUEST', blocking=True)` until the request is
addressed to the station itself; fused here into one scan that skips
non-request frames and misdirected requests alike. -/
def awaitFirstRequest (h : MavlinkHandler) : List VFrame → Option (List VFrame)
  | [] => none
  | f :: rest =>
      if f.getType == "MISSION_REQUEST" && isAddressedRequest h f then some rest
      else awaitFirstRequest h rest

/-- One waypoint dictionary handed to `MavlinkHandler.upload_mission`,
with the keys `MissionPlanner.upload_mission_to_vehicle` always sets
(mission_planner.py lines 214-238); the handler's `wp.get(key, default)`
calls therefore always find the key. -/
structure MavWp where
  x : ℚ
  y : ℚ
  z : ℚ
  p1 : ℚ
  p2 : ℚ
  p3 : ℚ
  p4 : ℚ
  frame : Nat
  autocontinue : Nat
  command : Nat
deriving DecidableEq

/-- The `mission_item_send` call at mavlink_handler.py lines 234-246,
recorded as the tuple of arguments actually passed: the command is the
hard-coded `MAV_CMD_NAV_WAYPOINT`, `current` is 0 and autocontinue is
`1 if i == 0 else 0`; the dict's `command`, `p4` and `autocontinue`
entries are never read. -/
def missionItemFrame (h : MavlinkHandler) (i : Nat) (wp : MavWp) : GFrame :=
  .missionItem h.vehicleSystem h.vehicleComponent i wp.frame
    MAV_CMD_NAV_WAYPOINT 0 (if i == 0 then 1 else 0)
    wp.p1 wp.p2 wp.p3 wp.x wp.y wp.z MAV_MISSION_TYPE_MISSION

/-- The send loop of `upload_mission` (lines 233-251): send the item at
the station's own counter `i`, then block for the next `MISSION_REQUEST`
or `MISSION_ACK` (no addressing check here); an ack breaks the loop and
the upload returns `True`.  Result: (outcome, frames sent, inbound frames
left unconsumed); outcome `none` models blocking forever. -/
def sendItems (h : MavlinkHandler) :
    List MavWp → Nat → List VFrame → List GFrame →
    Option Bool × List GFrame × List VFrame
  | [], _, inbound, sent => (some true, sent, inbound)
  | wp :: rest, i, inbound, sent =>
      let sent' := sent ++ [missionItemFrame h i wp]
      match recvMatch ["MISSION_REQUEST", "MISSION_ACK"] inbound with
      | none => (none, sent', [])
      | some (f, inbound') =>
          if f.getType == "MISSION_ACK" then (some true, sent', inbound')
          else sendItems h rest (i + 1) inbound' sent'

/-- `MavlinkHandler.upload_mission` (mavlink_handler.py lines 205-258)
as a function of the inbound frame stream.  Returns the outcome (`none`
when a blocking receive never returns), the frames sent, and the inbound
frames left unconsumed. -/
def MavlinkHandler.upload_mission (h : MavlinkHandler) (waypoints : List MavWp)
    (inbound : List VFrame) : Option Bool × List GFrame × List VFrame :=
  if h.connected = false then (some false, [], inbound)
  else
    let clearFrame := GFrame.missionClearAll h.vehicleSystem h.vehicleComponent
    match recvMatch ["MISSION_ACK"] inbound with
    | none => (none, [clearFrame], [])
    | some (_, in1) =>
        let countFrame := GFrame.missionCount h.vehicleSystem h.vehicleComponent
          waypoints.length 0
        match awaitFirstRequest h in1 with
        | none => (none, [clearFrame, countFrame], [])
        | some in2 => sendItems h waypoints 0 in2 [clearFrame, countFrame]

/-- `MavlinkHandler.set_mode` (mavlink_handler.py lines 180-203); the
result records the boolean outcome and the frames handed to the
transport. -/
def MavlinkHandler.set_mode (h : MavlinkHandler) (mode : String) :
    Bool × List GFrame :=
  if h.connected = false then (false, [])
  else
    match h.modeMapping.lookup mode with
    | none => (false, [])
    | some modeId =>
        (true, [GFrame.setModeFrame h.vehicleSystem
          MAV_MODE_FLAG_CUSTOM_MODE_ENABLED modeId])

/-- A `PARAM_VALUE` or `PARAM_EXT_VALUE` message, with the fields
`get_parameters` reads. -/
inductive ParamMsg where
  | paramValue (paramId : String) (paramValue : ℚ) (paramCount paramIndex : Nat)
  | paramExtValue (paramId : String) (paramValue : ℚ) (paramCount paramIndex : Nat)
deriving DecidableEq

/-- Python dict insertion `d[k] = v`: update in place when the key
exists, append otherwise (insertion order preserved). -/
def insertParam (ps : List (String × ℚ)) (k : String) (v : ℚ) :
    List (String × ℚ) :=
  if ps.any (fun kv => kv.1 == k) then
    ps.map (fun kv => if kv.1 == k then (k, v) else kv)
  else ps ++ [(k, v)]

/-- The external mavutil connection records every received `PARAM_VALUE`
in `master.params`; `PARAM_EXT_VALUE` messages are not stored there. -/
def storeParam (ps : List (String × ℚ)) : ParamMsg → List (String × ℚ)
  | .paramValue paramId paramValue _ _ => insertParam ps paramId paramValue
  | .paramExtValue _ _ _ _ => ps

/-- The break condition at mavlink_handler.py lines 289-291: a
`PARAM_VALUE` whose `param_count > 0` and `param_index == param_count - 1`. -/
def isTerminalParam : ParamMsg → Bool
  | .paramValue _ _ paramCount paramIndex =>
      decide (0 < paramCount) && paramIndex == paramCount - 1
  | .paramExtValue _ _ _ _ => false

/-- The wait loop of `get_parameters` (lines 287-291): consume parameter
messages (each recorded into `master.params` by the collaborator) until
the terminal one; `none` when the stream ends first (the blocking
receive would never return). -/
def paramLoop (ps : List (String × ℚ)) : List ParamMsg →
    Option (List (String × ℚ))
  | [] => none
  | m :: rest =>
      let ps' := storeParam ps m
      if isTerminalParam m then some ps' else paramLoop ps' rest

/-- `MavlinkHandler.get_parameters` (mavlink_handler.py lines 277-299)
as a function of the inbound parameter-message stream; `ps0` is the
collaborator's `master.params` content before the call. -/
def MavlinkHandler.get_parameters (h : MavlinkHandler)
    (ps0 : List (String × ℚ)) (frames : List ParamMsg) :
    Option (List (String × ℚ)) :=
  if h.connected = false then some []
  else paramLoop ps0 frames

/-- The `Waypoint` dataclass (mission_planner.py lines 15-27). -/
structure Waypoint where
  latitude : ℚ
  longitude : ℚ
  altitude : ℚ
  speed : ℚ := 0
  holdTime : ℤ := 0
  acceptRadius : ℚ := 5
  passRadius : ℚ := 2
  yawAngle : ℚ := 0
  waypointType : String := "WAYPOINT"
  autocontinue : Bool := true
deriving DecidableEq

/-- A Python value stored in a waypoint dictionary. -/
inductive PyVal where
  | float (q : ℚ)
  | int (n : ℤ)
  | str (s : String)
  | bool (b : Bool)
deriving DecidableEq

def asFloat : PyVal → Option ℚ
  | .float q => some q
  | _ => none

def asInt : PyVal → Option ℤ
  | .int n => some n
  | _ => none

def asStr : PyVal → Option String
  | .str s => some s
  | _ => none

def asBool : PyVal → Option Bool
  | .bool b => some b
  | _ => none

/-- `Waypoint.to_dict` (mission_planner.py lines 29-42). -/
def Waypoint.to_dict (w : Waypoint) : List (String × PyVal) :=
  [("latitude", .float w.latitude),
   ("longitude", .float w.longitude),
   ("altitude", .float w.altitude),
   ("speed", .float w.speed),
   ("hold_time", .int w.holdTime),
   ("accept_radius", .float w.acceptRadius),
   ("pass_radius", .float w.passRadius),
   ("yaw_angle", .float w.yawAngle),
   ("waypoint_type", .str w.waypointType),
   ("autocontinue", .bool w.autocontinue)]

def wpFieldNames : List String :=
  ["latitude", "longitude", "altitude", "speed", "hold_time",
   "accept_radius", "pass_radius", "yaw_angle", "waypoint_type",
   "autocontinue"]

def lookupFloat (d : List (String × PyVal)) (k : String) : Option ℚ :=
  (d.lookup k).bind asFloat

def lookupFloatD (d : List (String × PyVal)) (k : String) (v : ℚ) : Option ℚ :=
  match d.lookup k with
  | none => some v
  | some pv => asFloat pv

def lookupIntD (d : List (String × PyVal)) (k : String) (v : ℤ) : Option ℤ :=
  match d.lookup k with
  | none => some v
  | some pv => asInt pv

def lookupStrD (d : List (String × PyVal)) (k : String) (v : String) :
    Option String :=
  match d.lookup k with
  | none => some v
  | some pv => asStr pv

def lookupBoolD (d : List (String × PyVal)) (k : String) (v : Bool) :
    Option Bool :=
  match d.lookup k with
  | none => some v
  | some pv => asBool pv

/-- `Waypoint.from_dict`, i.e. `cls(**data)` (mission_planner.py lines
44-47): an unknown keyword fails, the three fields without dataclass
defaults are required, the rest fall back to their defaults. -/
def Waypoint.from_dict (d : List (String × PyVal)) : Option Waypoint :=
  if d.all (fun kv => wpFieldNames.contains kv.1) then do
    let latitude ← lookupFloat d "latitude"
    let longitude ← lookupFloat d "longitude"
    let altitude ← lookupFloat d "altitude"
    let speed ← lookupFloatD d "speed" 0
    let holdTime ← lookupIntD d "hold_time" 0
    let acceptRadius ← lookupFloatD d "accept_radius" 5
    let passRadius ← lookupFloatD d "pass_radius" 2
    let yawAngle ← lookupFloatD d "yaw_angle" 0
    let waypointType ← lookupStrD d "waypoint_type" "WAYPOINT"
    let autocontinue ← lookupBoolD d "autocontinue" true
    some { latitude, longitude, altitude, speed, holdTime, acceptRadius,
           passRadius, yawAngle, waypointType, autocontinue }
  else none

/-- The waypoint-to-dict conversion written at mission_planner.py lines
213-238, as it would evaluate with `mavutil` in scope: the base dict of
lines 214-224 (`command := 0` stands for the key being absent before the
if/elif chain, which always overwrites it), then the command selection
by waypoint type, with `p1` repurposed to the hold time for
`LOITER_TIME`. -/
def toMavWaypoint (wp : Waypoint) : MavWp :=
  let base : MavWp :=
    { x := wp.latitude, y := wp.longitude, z := wp.altitude,
      p1 := wp.speed, p2 := wp.acceptRadius, p3 := wp.passRadius,
      p4 := wp.yawAngle, frame := 3,
      autocontinue := if wp.autocontinue then 1 else 0, command := 0 }
  if wp.waypointType = "TAKEOFF" then
    { base with command := MAV_CMD_NAV_TAKEOFF }
  else if wp.waypointType = "LAND" then
    { base with command := MAV_CMD_NAV_LAND }
  else if wp.waypointType = "RETURN_TO_LAUNCH" then
    { base with command := MAV_CMD_NAV_RETURN_TO_LAUNCH }
  else if wp.waypointType = "LOITER_TIME" then
    { base with command := MAV_CMD_NAV_LOITER_TIME, p1 := (wp.holdTime : ℚ) }
  else
    { base with command := MAV_CMD_NAV_WAYPOINT }

/-- A Python exception escaping a call. -/
inductive PyErr where
  | nameError (name : String)
deriving DecidableEq

/-- Runtime evaluation of one iteration of the conversion loop in
`MissionPlanner.upload_mission_to_vehicle` (mission_planner.py lines
213-238): mission_planner.py imports json, logging, pathlib, typing,
dataclasses and time but not pymavlink's mavutil, and every branch of
the command-selection chain dereferences `mavutil.mavlink`, so the first
iteration raises `NameError: name 'mavutil' is not defined`. -/
def buildMavWaypointRun : Waypoint → Except PyErr MavWp :=
  fun _ => .error (.nameError "mavutil")

/-- The conversion loop at mission_planner.py lines 213-239, threading
the possible exception. -/
def buildMavWaypoints : List Waypoint → Except PyErr (List MavWp)
  | [] => .ok []
  | wp :: rest => do
      let m ← buildMavWaypointRun wp
      let ms ← buildMavWaypoints rest
      .ok (m :: ms)

/-- `MissionPlanner.upload_mission_to_vehicle` (mission_planner.py lines
199-242): empty mission fails immediately; otherwise the waypoints are
converted (which raises, see `buildMavWaypointRun`) and handed to
`MavlinkHandler.upload_mission`.  The planner has no try/except, so the
exception escapes to the caller.  Result: (outcome, frames sent, inbound
frames left unconsumed); an `Except.error` outcome is a raised
exception, `.ok none` a call that blocks forever. -/
def uploadMissionToVehicle (h : MavlinkHandler) (wps : List Waypoint)
    (inbound : List VFrame) :
    Except PyErr (Option Bool) × List GFrame × List VFrame :=
  if wps.isEmpty then (.ok (some false), [], inbound)
  else
    match buildMavWaypoints wps with
    | .error e => (.error e, [], inbound)
    | .ok mavWps =>
        let r := h.upload_mission mavWps inbound
        (.ok r.1, r.2.1, r.2.2)

/-- Frames sent by the station during the send loop for the waypoints
`wps`, the first carrying sequence number `i`. -/
def sentItems (h : MavlinkHandler) : Nat → List MavWp → List GFrame
  | _, [] => []
  | i, wp :: rest => missionItemFrame h i wp :: sentItems h (i + 1) rest

/-- A conforming vehicle's inbound tail after its first item request:
one further item request per remaining item (arbitrary target and
requested index — the station reads neither), then a single terminal
acknowledgment. -/
def conformingTail (reqs : List (Nat × Nat × Nat)) : List VFrame :=
  reqs.map (fun r => VFrame.missionRequest r.1 r.2.1 r.2.2) ++
    [VFrame.missionAck]

/-- Concrete handler state right after a successful `connect`. -/
def hC : MavlinkHandler :=
  { connected := true, vehicleSystem := 1, vehicleComponent := 1,
    modeMapping := [("STABILIZE", 0), ("GUIDED", 4)] }

/-- A concrete waypoint dictionary in the handler's format. -/
def wpC : MavWp :=
  { x := 1, y := 2, z := 10, p1 := 0, p2 := 5, p3 := 2, p4 := 0,
    frame := 3, autocontinue := 1, command := MAV_CMD_NAV_WAYPOINT }

/-- A second, distinct concrete waypoint dictionary. -/
def wpC2 : MavWp := { wpC with x := 3 }

/-- A concrete waypoint whose type is TAKEOFF. -/
def wpTakeoff : Waypoint :=
  { latitude := 1, longitude := 2, altitude := 30, waypointType := "TAKEOFF" }

/- Shared lemmas. -/

lemma processMessage_connected (h : MavlinkHandler) (now : ℚ) (m : Msg) :
    (h.processMessage now m).connected = h.connected := by
  cases m <;> rfl

lemma drain_connected (h : MavlinkHandler) (now : ℚ) (frames : List Msg) :
    (h.drain now frames).connected = h.connected := by
  induction frames generalizing h with
  | nil => rfl
  | cons m rest ih =>
      show ((h.processMessage now m).drain now rest).connected = h.connected
      rw [ih, processMessage_connected]

lemma drain_heartbeatTimeout (h : MavlinkHandler) (now : ℚ) (frames : List Msg) :
    (h.drain now frames).heartbeatTimeout = h.heartbeatTimeout := by
  induction frames generalizing h with
  | nil => rfl
  | cons m rest ih =>
      show ((h.processMessage now m).drain now rest).heartbeatTimeout = _
      rw [ih]
      cases m <;> rfl

lemma paramLoop_collects (pre : List ParamMsg) :
    ∀ (t : ParamMsg) (rest : List ParamMsg) (ps : List (String × ℚ)),
      (∀ m ∈ pre, isTerminalParam m = false) → isTerminalParam t = true →
      paramLoop ps (pre ++ t :: rest) =
        some ((pre ++ [t]).foldl storeParam ps) := by
  induction pre with
  | nil =>
      intro t rest ps _ ht
      simp [paramLoop, ht]
  | cons m pre ih =>
      intro t rest ps hpre ht
      have hm : isTerminalParam m = false := hpre m (by simp)
      simpa [paramLoop, hm] using
        ih t rest (storeParam ps m) (fun x hx => hpre x (by simp [hx])) ht

lemma sendItems_conforming (h : MavlinkHandler) (wps : List MavWp) :
    ∀ (reqs : List (Nat × Nat × Nat)) (i : Nat) (sent : List GFrame),
      reqs.length + 1 = wps.length →
      sendItems h wps i (conformingTail reqs) sent =
        (some true, sent ++ sentItems h i wps, []) := by
  induction wps with
  | nil => intro reqs i sent hlen; simp at hlen
  | cons wp rest ih =>
      intro reqs i sent hlen
      cases reqs with
      | nil =>
          have hr : rest = [] := by
            have : rest.length = 0 := by simpa using hlen.symm
            simpa [List.length_eq_zero] using this
          subst hr
          simp [sendItems, conformingTail, recvMatch, VFrame.getType, sentItems]
      | cons r reqs =>
          have hlen' : reqs.length + 1 = rest.length := by simpa using hlen
          have step := ih reqs (i + 1) (sent ++ [missionItemFrame h i wp]) hlen'
          simpa [sendItems, conformingTail, recvMatch, VFrame.getType,
            sentItems, conformingTail] using step

lemma sentItems_seq (h : MavlinkHandler) (wps : List MavWp) :
    ∀ i : Nat, (sentItems h i wps).map GFrame.itemSeq =
      List.range' i wps.length := by
  induction wps with
  | nil => intro i; rfl
  | cons wp rest ih =>
      intro i
      simp [sentItems, missionItemFrame, GFrame.itemSeq, List.range'_succ,
        ih (i + 1)]

/- Claim theorems. -/

/-- C4: for every decoded GLOBAL_POSITION_INT frame the decoder sets
latitude and longitude to the raw value divided by 1e7, altitude to the
raw millimetre value divided by 1000 and heading to the raw centidegree
value divided by 100; in particular raw latitude 123456789 with raw
altitude 15000 yields latitude 12.3456789 degrees (within 1e-7) and
altitude 15.0 metres. -/
theorem global_position_decode (h : MavlinkHandler) (now : ℚ)
    (lat lon alt hdg : ℤ) :
    ((h.processMessage now (.globalPositionInt lat lon alt hdg)).telemetry.latitude
        = (lat : ℚ) / 1e7
      ∧ (h.processMessage now (.globalPositionInt lat lon alt hdg)).telemetry.longitude
        = (lon : ℚ) / 1e7
      ∧ (h.processMessage now (.globalPositionInt lat lon alt hdg)).telemetry.altitude
        = (alt : ℚ) / 1000
      ∧ (h.processMessage now (.globalPositionInt lat lon alt hdg)).telemetry.heading
        = (hdg : ℚ) / 100)
    ∧ |(h.processMessage now (.globalPositionInt 123456789 0 15000 0)).telemetry.latitude
        - 12.3456789| ≤ 1e-7
    ∧ (h.processMessage now (.globalPositionInt 123456789 0 15000 0)).telemetry.altitude
        = 15 := by
  refine ⟨⟨rfl, rfl, rfl, rfl⟩, ?_, ?_⟩
  · show |(123456789 : ℚ) / 1e7 - 12.3456789| ≤ 1e-7
    norm_num
  · show (15000 : ℚ) / 1000 = 15
    norm_num

/-- C5: processing a frame whose kind is none of HEARTBEAT,
GLOBAL_POSITION_INT, VFR_HUD, SYS_STATUS never fails and leaves the
handler state, in particular every telemetry snapshot field,
unchanged. -/
theorem unknown_frame_ignored (h : MavlinkHandler) (now : ℚ) (m : Msg)
    (hm : m.getType ∉
      (["HEARTBEAT", "GLOBAL_POSITION_INT", "VFR_HUD", "SYS_STATUS"] :
        List String)) :
    h.processMessage now m = h := by
  cases m with
  | heartbeat baseMode customMode => simp [Msg.getType] at hm
  | globalPositionInt lat lon alt hdg => simp [Msg.getType] at hm
  | vfrHud gs => simp [Msg.getType] at hm
  | sysStatus v r => simp [Msg.getType] at hm
  | other kind => rfl

/-- Witness for C5 at a concrete unknown frame kind. -/
theorem unknown_frame_ignored_witness :
    hC.processMessage 0 (.other "ATTITUDE") = hC :=
  unknown_frame_ignored hC 0 (.other "ATTITUDE") (by decide)

/-- C7: for every mode name missing from the vehicle's mode-name table,
set_mode returns failure and hands zero frames to the transport. -/
theorem set_mode_unknown (h : MavlinkHandler) (mode : String)
    (hm : h.modeMapping.lookup mode = none) :
    h.set_mode mode = (false, []) := by
  unfold MavlinkHandler.set_mode
  by_cases hc : h.connected = false
  · simp [hc]
  · simp [hc, hm]

/-- Witness for C7: an unknown mode name against the concrete table. -/
theorem set_mode_unknown_witness : hC.set_mode "UNKNOWN_MODE" = (false, []) :=
  set_mode_unknown hC "UNKNOWN_MODE" (by decide)

/-- C10: the waypoint dictionary serialization round-trips exactly,
preserving all ten fields including waypoint_type and autocontinue. -/
theorem waypoint_roundtrip (w : Waypoint) :
    Waypoint.from_dict (Waypoint.to_dict w) = some w := by
  cases w
  rfl

/-- C6: for every poll while connected, after draining all available
frames: a transport read error yields failure with connected set to
false; otherwise, if the time since the last heartbeat exceeds the
heartbeat timeout the poll yields failure with connected set to false,
and otherwise it yields success with connected still true. -/
theorem poll_liveness (h : MavlinkHandler) (now : ℚ) (frames : List Msg)
    (hc : h.connected = true) :
    ((h.update_telemetry now frames true).1 = false
      ∧ (h.update_telemetry now frames true).2.connected = false)
    ∧ (now - (h.drain now frames).lastHeartbeat > h.heartbeatTimeout →
        (h.update_telemetry now frames false).1 = false
          ∧ (h.update_telemetry now frames false).2.connected = false)
    ∧ (¬ now - (h.drain now frames).lastHeartbeat > h.heartbeatTimeout →
        (h.update_telemetry now frames false).1 = true
          ∧ (h.update_telemetry now frames false).2 = h.drain now frames
          ∧ (h.update_telemetry now frames false).2.connected = true) := by
  have hdc : (h.drain now frames).connected = true := by
    rw [drain_connected]; exact hc
  refine ⟨⟨?_, ?_⟩, fun ht => ⟨?_, ?_⟩, fun ht => ⟨?_, ?_, ?_⟩⟩
  all_goals simp [MavlinkHandler.update_telemetry, hc, hdc]
  all_goals simp [ht, hdc]

/-- Witness for C6 at a concrete connected handler: with no heartbeat
since time 0 and the timeout of 3 seconds, a poll at time 10 fails both
on a read error and on heartbeat timeout, and a poll at time 2
succeeds. -/
theorem poll_liveness_witness :
    (hC.update_telemetry 10 [] true).1 = false
      ∧ (hC.update_telemetry 10 [] false).1 = false
      ∧ (hC.update_telemetry 2 [] false).1 = true := by
  have t10 := poll_liveness hC 10 [] rfl
  have t2 := poll_liveness hC 2 [] rfl
  refine ⟨t10.1.1, (t10.2.1 ?_).1, (t2.2.2 ?_).1⟩
  · show (10 : ℚ) - (hC.drain 10 []).lastHeartbeat > hC.heartbeatTimeout
    norm_num [MavlinkHandler.drain, hC]
  · show ¬ (2 : ℚ) - (hC.drain 2 []).lastHeartbeat > hC.heartbeatTimeout
    norm_num [MavlinkHandler.drain, hC]

/-- C8: while connected, get_parameters consumes incoming
parameter-value messages until the first one whose reported index equals
its reported total count minus one, and returns the name-to-value
mapping accumulated from every message seen. -/
theorem get_parameters_collects (h : MavlinkHandler)
    (ps0 : List (String × ℚ)) (pre rest : List ParamMsg) (t : ParamMsg)
    (hc : h.connected = true)
    (hpre : ∀ m ∈ pre, isTerminalParam m = false)
    (ht : isTerminalParam t = true) :
    h.get_parameters ps0 (pre ++ t :: rest) =
      some ((pre ++ [t]).foldl storeParam ps0) := by
  unfold MavlinkHandler.get_parameters
  rw [hc]
  simpa using paramLoop_collects pre t rest ps0 hpre ht

/-- Witness for C8: a vehicle reporting count 3 whose value frames
arrive for indices 1, 0, 2 in that order yields a mapping with exactly
3 entries keyed by name. -/
theorem get_parameters_collects_witness :
    hC.get_parameters []
        [.paramValue "B" 2 3 1, .paramValue "A" 1 3 0, .paramValue "C" 3 3 2]
      = some [("B", 2), ("A", 1), ("C", 3)]
    ∧ ([("B", (2 : ℚ)), ("A", 1), ("C", 3)]).length = 3 := by
  refine ⟨?_, rfl⟩
  have step := get_parameters_collects hC []
    [.paramValue "B" 2 3 1, .paramValue "A" 1 3 0] []
    (.paramValue "C" 3 3 2) rfl (by decide) (by decide)
  exact step.trans (by rfl)

/-- C9 counterexample: with two waypoints, a vehicle that acknowledges
right after the first item makes upload_mission return success having
performed a single round trip instead of two; and a misdirected item
request arriving after the first item is consumed as the next round-trip
trigger instead of being discarded. -/
theorem upload_mission_claim_counterexample :
    (hC.upload_mission [wpC, wpC]
        [VFrame.missionAck, VFrame.missionRequest 255 190 0, VFrame.missionAck]
      = (some true,
          [GFrame.missionClearAll 1 1, GFrame.missionCount 1 1 2 0,
           missionItemFrame hC 0 wpC], []))
    ∧ ((hC.upload_mission [wpC, wpC]
        [VFrame.missionAck, VFrame.missionRequest 255 190 0, VFrame.missionAck]).2.1.countP
          (fun f => f.isMissionItem) = 1 ∧ (1 : Nat) ≠ [wpC, wpC].length)
    ∧ (hC.upload_mission [wpC, wpC]
        [VFrame.missionAck, VFrame.missionRequest 255 190 0,
         VFrame.missionRequest 9 9 5, VFrame.missionAck]
      = (some true,
          [GFrame.missionClearAll 1 1, GFrame.missionCount 1 1 2 0,
           missionItemFrame hC 0 wpC, missionItemFrame hC 1 wpC], [])) := by
  refine ⟨rfl, ⟨rfl, by decide⟩, rfl⟩

/-- C9 (amended): for every non-empty waypoint list, when the vehicle
acknowledges the clear, issues a first item request addressed to the
station, then one further item request per remaining item (whatever its
target fields or requested index, which the station never reads) and a
single final acknowledgment, upload_mission succeeds after exactly N
round trips, sending mission-item frames with strictly increasing
sequence numbers 0..N-1 taken from its own counter, consuming the whole
exchange including the single terminal acknowledgment. -/
theorem upload_mission_conforming (h : MavlinkHandler) (wps : List MavWp)
    (reqs : List (Nat × Nat × Nat)) (seq0 : Nat)
    (hc : h.connected = true) (hlen : reqs.length + 1 = wps.length) :
    h.upload_mission wps
        (VFrame.missionAck
          :: VFrame.missionRequest h.sourceSystem h.sourceComponent seq0
          :: conformingTail reqs)
      = (some true,
          GFrame.missionClearAll h.vehicleSystem h.vehicleComponent
            :: GFrame.missionCount h.vehicleSystem h.vehicleComponent
                wps.length 0
            :: sentItems h 0 wps, [])
    ∧ (sentItems h 0 wps).map GFrame.itemSeq = List.range wps.length := by
  constructor
  · unfold MavlinkHandler.upload_mission
    rw [hc]
    have step := sendItems_conforming h wps reqs 0
      [GFrame.missionClearAll h.vehicleSystem h.vehicleComponent,
       GFrame.missionCount h.vehicleSystem h.vehicleComponent wps.length 0]
      hlen
    simpa [recvMatch, VFrame.getType, awaitFirstRequest, isAddressedRequest]
      using step
  · rw [sentItems_seq h wps 0, List.range_eq_range']

/-- Witness for C9 (amended) on a concrete two-waypoint conforming
exchange. -/
theorem upload_mission_conforming_witness :
    hC.upload_mission [wpC, wpC2]
        (VFrame.missionAck
          :: VFrame.missionRequest hC.sourceSystem hC.sourceComponent 0
          :: conformingTail [(255, 190, 1)])
      = (some true,
          GFrame.missionClearAll hC.vehicleSystem hC.vehicleComponent
            :: GFrame.missionCount hC.vehicleSystem hC.vehicleComponent 2 0
            :: sentItems hC 0 [wpC, wpC2], [])
    ∧ (sentItems hC 0 [wpC, wpC2]).map GFrame.itemSeq = List.range 2 :=
  upload_mission_conforming hC [wpC, wpC2] [(255, 190, 1)] 0 rfl rfl

/-- C1 (code evaluated at the failing input): the planner's conversion
maps a TAKEOFF waypoint to the takeoff command code in its dictionary,
but the mission-item frame the handler actually sends carries the
hard-coded generic waypoint command, which differs. -/
theorem command_code_not_sent :
    (toMavWaypoint wpTakeoff).command = MAV_CMD_NAV_TAKEOFF
    ∧ (missionItemFrame hC 0 (toMavWaypoint wpTakeoff)).itemCommand
        = MAV_CMD_NAV_WAYPOINT
    ∧ MAV_CMD_NAV_WAYPOINT ≠ MAV_CMD_NAV_TAKEOFF :=
  ⟨rfl, rfl, by decide⟩

/-- C2: uploading the current mission with an empty waypoint list
returns failure immediately, with no frame (neither a mission-clear nor
a mission-count) handed to the transport and the inbound stream
untouched. -/
theorem upload_empty_no_frames (h : MavlinkHandler) (inbound : List VFrame) :
    uploadMissionToVehicle h [] inbound = (.ok (some false), [], inbound) :=
  rfl

/-- C3 (code evaluated at the failing input): uploading any non-empty
mission raises NameError instead of reporting failure as a boolean,
because mission_planner.py references mavutil without importing it. -/
theorem upload_nonempty_raises (h : MavlinkHandler) (wp : Waypoint)
    (wps : List Waypoint) (inbound : List VFrame) :
    uploadMissionToVehicle h (wp :: wps) inbound =
      (.error (.nameError "mavutil"), [], inbound) :=
  rfl
